import Mathlib

/-!
Shallow embedding of `src/platform_impl/ios/event_loop.rs` (winit iOS
event-loop bridge).  The FFI world (CFRunLoop sources, observers, wake-ups,
the mpsc channel) is modelled as an explicit `World` state threaded through
the operations, together with a trace of the FFI side effects each
operation performs, in the order the source performs them.
-/

namespace Winit

/-- Modelled from the platform FFI declarations (`ffi.rs`, not under `src/`):
the CFRunLoop activity bit flags.  Values are CoreFoundation's documented
bit assignments; only their distinctness and bit-disjointness matter here. -/
def kCFRunLoopEntry : Nat := 1

/-- Modelled from the platform FFI declarations: `kCFRunLoopBeforeWaiting = 1 << 5`. -/
def kCFRunLoopBeforeWaiting : Nat := 32

/-- Modelled from the platform FFI declarations: `kCFRunLoopAfterWaiting = 1 << 6`. -/
def kCFRunLoopAfterWaiting : Nat := 64

/-- Modelled from the platform FFI declarations: `kCFRunLoopExit = 1 << 7`. -/
def kCFRunLoopExit : Nat := 128

/-- CFIndex is a signed 64-bit integer; `CFIndex::min_value()` in the source. -/
def CFIndexMin : Int := -(2 ^ 63)

/-- CFIndex is a signed 64-bit integer; `CFIndex::max_value()` in the source. -/
def CFIndexMax : Int := 2 ^ 63 - 1

/-- A run-loop source as registered with the main CFRunLoop
(`CFRunLoopSourceCreate` / `CFRunLoopAddSource`): its identity, the order
argument it was created with, whether it is still valid (not yet hit by
`CFRunLoopSourceInvalidate`), and whether it is currently signaled. -/
structure RunLoopSource where
  sid : Nat
  order : Int
  valid : Bool
  signaled : Bool
  deriving DecidableEq

/-- Which of the two extern "C" observer callbacks of
`setup_control_flow_observers` an observer dispatches to. -/
inductive ObserverKind where
  | controlFlowBegin
  | controlFlowEnd
  deriving DecidableEq

/-- A CFRunLoop observer as registered by `CFRunLoopObserverCreate` /
`CFRunLoopAddObserver`: the activity bitmask it listens to, its order
(CFRunLoop runs same-activity observers in increasing order), and which
handler it invokes. -/
structure Observer where
  activities : Nat
  order : Int
  kind : ObserverKind
  deriving DecidableEq

/-- FFI side effects performed by the bridge, recorded in program order. -/
inductive Effect where
  | sourceCreate (sid : Nat) (order : Int)
  | addSource (sid : Nat)
  | wakeUp
  | sourceSignal (sid : Nat)
  | sourceInvalidate (sid : Nat)
  | cfRelease (sid : Nat)
  | addObserver (activities : Nat) (order : Int)
  | willLaunch
  | uiApplicationMain
  deriving DecidableEq

/-- The state the bridge manipulates: the main run loop's registered
sources and observers and its wake-up count, the single mpsc channel
(`queue` is the buffered values, `receiverAlive` is whether the consumer
end still exists), a counter minting fresh source identities, and the
process-wide `SINGLETON_INIT` flag of `EventLoop::new`. -/
structure World (T : Type) where
  sources : List RunLoopSource
  nextSource : Nat
  observers : List Observer
  wakeCount : Nat
  queue : List T
  receiverAlive : Bool
  singletonInit : Bool

/-- The process state before any of this code has run. -/
def initialWorld (T : Type) : World T :=
  { sources := [], nextSource := 0, observers := [], wakeCount := 0,
    queue := [], receiverAlive := true, singletonInit := false }

/-- Whether the source with identity `sid` is registered and still valid. -/
def sourceValid {T : Type} (w : World T) (sid : Nat) : Bool :=
  w.sources.any (fun s => s.sid == sid && s.valid)

/-- The `EventLoopProxy<T>` of the source: a channel producer (all
producers feed the one channel of the `World`, mirroring
`sender: Sender<T>` clones of the same channel) plus the identity of the
CFRunLoop source this proxy instance created. -/
structure EventLoopProxy where
  source : Nat
  deriving DecidableEq

/-- Translation of `EventLoopProxy::new` (event_loop.rs:148-166): creates
a fresh run-loop source with order `CFIndex::max_value() - 1`, adds it to
the main run loop, wakes the loop once, and returns the proxy holding the
sender and the new source. -/
def EventLoopProxy.new {T : Type} (w : World T) :
    World T × EventLoopProxy × List Effect :=
  ({ w with
      sources := w.sources ++ [⟨w.nextSource, CFIndexMax - 1, true, false⟩],
      nextSource := w.nextSource + 1,
      wakeCount := w.wakeCount + 1 },
   ⟨w.nextSource⟩,
   [.sourceCreate w.nextSource (CFIndexMax - 1), .addSource w.nextSource, .wakeUp])

/-- Translation of `EventLoop::create_proxy` (event_loop.rs:98-100):
`EventLoopProxy::new(self.window_target.p.sender_to_clone.clone())` —
a clone of the cached producer of the one channel, then `new`. -/
def EventLoop.create_proxy {T : Type} (w : World T) :
    World T × EventLoopProxy × List Effect :=
  EventLoopProxy.new w

/-- Translation of `impl Clone for EventLoopProxy` (event_loop.rs:132-136):
`EventLoopProxy::new(self.sender.clone())` — clones the producer (same
channel) and calls `new`, which creates a fresh run-loop source. -/
def EventLoopProxy.clone {T : Type} (w : World T) (_p : EventLoopProxy) :
    World T × EventLoopProxy × List Effect :=
  EventLoopProxy.new w

/-- Translation of `impl Drop for EventLoopProxy` (event_loop.rs:138-145):
`CFRunLoopSourceInvalidate(self.source); CFRelease(self.source)`. -/
def EventLoopProxy.drop {T : Type} (w : World T) (p : EventLoopProxy) :
    World T × List Effect :=
  ({ w with
      sources := w.sources.map
        (fun s => if s.sid = p.source then { s with valid := false } else s) },
   [.sourceInvalidate p.source, .cfRelease p.source])

/-- The single error of `send_event`, `EventLoopClosed`. -/
inductive EventLoopClosed where
  | mk
  deriving DecidableEq

/-- Translation of `EventLoopProxy::send_event` (event_loop.rs:168-177):
`self.sender.send(event).map_err(|_| EventLoopClosed)?` — an mpsc send
succeeds (enqueueing in FIFO order) exactly when the receiver end is still
alive — then on the success path `CFRunLoopSourceSignal(self.source)` and
`CFRunLoopWakeUp(CFRunLoopGetMain())`. -/
def send_event {T : Type} (w : World T) (p : EventLoopProxy) (v : T) :
    World T × Except EventLoopClosed Unit × List Effect :=
  if w.receiverAlive then
    ({ w with
        queue := w.queue ++ [v],
        sources := w.sources.map
          (fun s => if s.sid = p.source then { s with signaled := true } else s),
        wakeCount := w.wakeCount + 1 },
     .ok (), [.sourceSignal p.source, .wakeUp])
  else
    (w, .error .mk, [])

/-- Dropping the `EventLoopWindowTarget` destroys the channel consumer
(`receiver: Receiver<T>`), after which every mpsc send fails. -/
def dropWindowTarget {T : Type} (w : World T) : World T :=
  { w with receiverAlive := false }

/-- A sequence of `send_event` calls from one proxy, in order; returns the
final state (results and effects are examined per-call elsewhere). -/
def sendAll {T : Type} (w : World T) (p : EventLoopProxy) : List T → World T
  | [] => w
  | v :: vs => sendAll (send_event w p v).1 p vs

/-- Calls into the `AppState` lifecycle collaborator made by the observer
handlers and by `run`. -/
inductive AppStateCall where
  | handle_wakeup_transition
  | handle_events_cleared
  deriving DecidableEq

/-- Outcome of one extern "C" observer handler invocation: either a call
into `AppState`, or one of the two panicking branches
(`unimplemented!()` on the entry/exit arm, `unreachable!()` on the
wildcard arm). -/
inductive HandlerOutcome where
  | calls (c : AppStateCall)
  | unimplementedFault
  | unreachableFault
  deriving DecidableEq

/-- Whether the outcome is one of the panicking branches. -/
def HandlerOutcome.isFault : HandlerOutcome → Bool
  | .calls _ => false
  | .unimplementedFault => true
  | .unreachableFault => true

/-- Translation of `control_flow_begin_handler` (event_loop.rs:183-196):
`match activity { kCFRunLoopAfterWaiting => AppState::handle_wakeup_transition(),
kCFRunLoopEntry => unimplemented!(), _ => unreachable!() }`. -/
def control_flow_begin_handler (activity : Nat) : HandlerOutcome :=
  if activity = kCFRunLoopAfterWaiting then .calls .handle_wakeup_transition
  else if activity = kCFRunLoopEntry then .unimplementedFault
  else .unreachableFault

/-- Translation of `control_flow_end_handler` (event_loop.rs:200-213):
`match activity { kCFRunLoopBeforeWaiting => AppState::handle_events_cleared(),
kCFRunLoopExit => unimplemented!(), _ => unreachable!() }`. -/
def control_flow_end_handler (activity : Nat) : HandlerOutcome :=
  if activity = kCFRunLoopBeforeWaiting then .calls .handle_events_cleared
  else if activity = kCFRunLoopExit then .unimplementedFault
  else .unreachableFault

/-- The begin observer registered by `setup_control_flow_observers`
(event_loop.rs:216-224): activities `kCFRunLoopEntry | kCFRunLoopAfterWaiting`,
order `CFIndex::min_value()`, dispatching to `control_flow_begin_handler`. -/
def beginObserver : Observer :=
  ⟨kCFRunLoopEntry ||| kCFRunLoopAfterWaiting, CFIndexMin, .controlFlowBegin⟩

/-- The end observer registered by `setup_control_flow_observers`
(event_loop.rs:225-233): activities `kCFRunLoopExit | kCFRunLoopBeforeWaiting`,
order `CFIndex::max_value()`, dispatching to `control_flow_end_handler`. -/
def endObserver : Observer :=
  ⟨kCFRunLoopExit ||| kCFRunLoopBeforeWaiting, CFIndexMax, .controlFlowEnd⟩

/-- Translation of `setup_control_flow_observers` (event_loop.rs:180-235):
registers the two observers on the main run loop. -/
def setup_control_flow_observers {T : Type} (w : World T) :
    World T × List Effect :=
  ({ w with observers := w.observers ++ [beginObserver, endObserver] },
   [.addObserver beginObserver.activities beginObserver.order,
    .addObserver endObserver.activities endObserver.order])

/-- CFRunLoop invokes an observer for an activity only when the activity is
in the observer's registered bitmask; the invocation then runs the
observer's handler on that activity. -/
def invokeObserver (o : Observer) (activity : Nat) : Option HandlerOutcome :=
  if activity &&& o.activities ≠ 0 then
    some (match o.kind with
      | .controlFlowBegin => control_flow_begin_handler activity
      | .controlFlowEnd => control_flow_end_handler activity)
  else none

/-- The reasons `EventLoop::new` aborts: the `assert_main_thread!` macro,
or the `assert!(!SINGLETON_INIT, ...)` second-instance guard. -/
inductive AbortReason where
  | notMainThread
  | secondInstance
  deriving DecidableEq

/-- Translation of `EventLoop::new` (event_loop.rs:41-68): asserts the main
thread, asserts the process-wide `SINGLETON_INIT` flag is unset and sets it,
registers the delegate class, creates the mpsc channel, and registers the
phase observers before returning the loop wrapping a fresh window target. -/
def EventLoop.new {T : Type} (onMainThread : Bool) (w : World T) :
    Except AbortReason (World T × List Effect) :=
  if ¬ onMainThread then .error .notMainThread
  else if w.singletonInit then .error .secondInstance
  else
    let w1 : World T :=
      { w with singletonInit := true, queue := [], receiverAlive := true }
    .ok (setup_control_flow_observers w1)

/-- Outcome of `EventLoop::run` (return type `!` in the source): either the
`assert_eq!` on the `UIApplication` singleton fires, or control is handed to
`UIApplicationMain`, which never returns.  There is no constructor for a
normal return to the caller. -/
inductive RunOutcome where
  | fatalAssertion
  | divergedInHost
  deriving DecidableEq

/-- Translation of `EventLoop::run` (event_loop.rs:70-96): asserts the
shared `UIApplication` singleton does not yet exist, registers the boxed
`EventLoopHandler` through `AppState::will_launch`, then calls
`UIApplicationMain`, which takes the thread permanently. -/
def EventLoop.run (sharedApplicationExists : Bool) : RunOutcome × List Effect :=
  if sharedApplicationExists then (.fatalAssertion, [])
  else (.divergedInHost, [.willLaunch, .uiApplicationMain])

/-- Translation of `pub enum Never {}` (event_loop.rs:238): uninhabited. -/
inductive Never

/-- Modelled from the spec: the non-user half of `Event<T>` (the
device/window/lifecycle events defined by the windowing layer, `event.rs`
not under `src/`), kept abstract as an opaque payload. -/
structure NonUserEvent where
  tag : Nat
  deriving DecidableEq

/-- Modelled from the spec: `Event<T>` is a tagged union of non-user events
and user events carrying a `T` injected via a proxy. -/
inductive Event (T : Type) where
  | UserEvent (value : T)
  | NonUser (e : NonUserEvent)
  deriving DecidableEq

/-- Modelled from the spec: `Event::map_nonuser_event` (`event.rs`, not
under `src/`) converts `Event<T>` to `Event<U>` when the event is not a
user event, and fails on a user event. -/
def Event.map_nonuser_event {T U : Type} : Event T → Option (Event U)
  | .UserEvent _ => none
  | .NonUser e => some (.NonUser e)

/-- Modelled from the spec: `ControlFlow` directs the host loop's waiting
behavior — poll, wait indefinitely, wait until a deadline, or exit. -/
inductive ControlFlow where
  | Poll
  | Wait
  | WaitUntil (deadline : Nat)
  | Exit
  deriving DecidableEq

/-- What one `handle_nonuser_event` dispatch does: either the wrapped
callback is invoked with this event and control-flow reference, or the
`.unwrap()` of `map_nonuser_event` panics. -/
inductive DispatchResult (T : Type) where
  | delivered (e : Event T) (cf : ControlFlow)
  | unwrapFault
  deriving DecidableEq

/-- Translation of `EventLoopHandler::handle_nonuser_event`
(event_loop.rs:263-269): `(self.f)(event.map_nonuser_event().unwrap(),
&self.event_loop, control_flow)`.  The result records the arguments the
wrapped callback receives (the window target field is the handler's fixed
`event_loop` and carries no data in this model). -/
def handle_nonuser_event {T : Type} (e : Event Never) (cf : ControlFlow) :
    DispatchResult T :=
  match Event.map_nonuser_event e with
  | some e2 => .delivered e2 cf
  | none => .unwrapFault

/-- Translation of `EventLoopHandler::handle_user_events`
(event_loop.rs:271-275): `for event in self.event_loop.p.receiver.try_iter()
{ (self.f)(Event::UserEvent(event), ..) }` — `try_iter` pops buffered
values without blocking until the channel is momentarily empty.  Returns
the drained state and the list of callback invocations in order. -/
def handle_user_events {T : Type} (w : World T) : World T × List (Event T) :=
  ({ w with queue := [] }, w.queue.map Event.UserEvent)

/-- Dropping each proxy of a list in order, concatenating the drop traces. -/
def dropAll {T : Type} (w : World T) : List EventLoopProxy → World T × List Effect
  | [] => (w, [])
  | p :: ps =>
    let r1 := EventLoopProxy.drop w p
    let r2 := dropAll r1.1 ps
    (r2.1, r1.2 ++ r2.2)

/-- Creating `n` proxies in a row from the same window target. -/
def createProxies {T : Type} (w : World T) : Nat → World T × List EventLoopProxy
  | 0 => (w, [])
  | n + 1 =>
    let r1 := EventLoop.create_proxy w
    let r2 := createProxies r1.1 n
    (r2.1, r1.2.1 :: r2.2)

/-- Sending a list of values through an alive channel appends them in order
and keeps the receiver alive. -/
theorem sendAll_queue {T : Type} (p : EventLoopProxy) :
    ∀ (vs : List T) (w : World T), w.receiverAlive = true →
      (sendAll w p vs).queue = w.queue ++ vs ∧
      (sendAll w p vs).receiverAlive = true
  | [], w, h => by simp [sendAll, h]
  | v :: vs, w, h => by
    have h1 : (send_event w p v).1.receiverAlive = true := by
      simp [send_event, h]
    have h2 : (send_event w p v).1.queue = w.queue ++ [v] := by
      simp [send_event, h]
    have ih := sendAll_queue p vs (send_event w p v).1 h1
    refine ⟨?_, ih.2⟩
    rw [sendAll, ih.1, h2, List.append_assoc]
    rfl

/-- Dropping a list of proxies produces, in order, one invalidate and one
release per proxy; so for each source identity the trace holds as many
invalidations (and releases) as the list holds proxies with that source. -/
theorem dropAll_count {T : Type} :
    ∀ (ps : List EventLoopProxy) (w : World T) (sid : Nat),
      (dropAll w ps).2.count (Effect.sourceInvalidate sid) =
        (ps.map EventLoopProxy.source).count sid ∧
      (dropAll w ps).2.count (Effect.cfRelease sid) =
        (ps.map EventLoopProxy.source).count sid
  | [], _, _ => ⟨rfl, rfl⟩
  | p :: ps, w, sid => by
    have ih := dropAll_count ps (EventLoopProxy.drop w p).1 sid
    have htr : (dropAll w (p :: ps)).2 =
        Effect.sourceInvalidate p.source :: Effect.cfRelease p.source ::
          (dropAll (EventLoopProxy.drop w p).1 ps).2 := rfl
    rw [htr, List.map_cons]
    constructor <;>
      simp [List.count_cons, ih.1, ih.2]

/-- The proxies minted by `n` consecutive `create_proxy` calls carry the
consecutive fresh source identities starting at the world's counter. -/
theorem createProxies_sources {T : Type} :
    ∀ (n : Nat) (w : World T),
      (createProxies w n).2.map EventLoopProxy.source =
        List.range' w.nextSource n
  | 0, _ => rfl
  | n + 1, w => by
    have ih := createProxies_sources n (EventLoop.create_proxy w).1
    have hnext : (EventLoop.create_proxy w).1.nextSource = w.nextSource + 1 := rfl
    simp only [createProxies, List.map_cons, ih, hnext, List.range'_succ]
    rfl

/-- C10: every proxy construction (`create_proxy` or `clone`) registers
exactly one new run-loop source with the main run loop and wakes the loop
exactly once, and leaves the channel contents and all other event-loop
state (receiver, observers, singleton flag) unchanged. -/
theorem C10_proxy_construction_effects {T : Type} (w : World T) (p : EventLoopProxy) :
    (EventLoopProxy.new w).2.2 =
      [Effect.sourceCreate w.nextSource (CFIndexMax - 1),
       Effect.addSource w.nextSource, Effect.wakeUp] ∧
    (EventLoopProxy.new w).2.2.count (Effect.addSource w.nextSource) = 1 ∧
    (EventLoopProxy.new w).2.2.count Effect.wakeUp = 1 ∧
    (EventLoopProxy.new w).1.wakeCount = w.wakeCount + 1 ∧
    (EventLoopProxy.new w).1.sources =
      w.sources ++ [⟨w.nextSource, CFIndexMax - 1, true, false⟩] ∧
    (EventLoopProxy.new w).1.queue = w.queue ∧
    (EventLoopProxy.new w).1.receiverAlive = w.receiverAlive ∧
    (EventLoopProxy.new w).1.observers = w.observers ∧
    (EventLoopProxy.new w).1.singletonInit = w.singletonInit ∧
    EventLoop.create_proxy w = EventLoopProxy.new w ∧
    EventLoopProxy.clone w p = EventLoopProxy.new w := by
  refine ⟨rfl, ?_, ?_, rfl, rfl, rfl, rfl, rfl, rfl, rfl, rfl⟩ <;>
    simp [EventLoopProxy.new, List.count_cons, List.count_nil]

/-- C5: both phase-observer handlers fault (panic) on the loop-entry and
loop-exit activities; and when only the after-waiting and before-waiting
activities occur, the registered observers (which CFRunLoop fires only for
activities in their masks) never reach a fault branch — the begin observer
calls the wakeup transition, the end observer calls events-cleared, and
neither fires for the other's activity. -/
theorem C5_entry_exit_fault :
    (control_flow_begin_handler kCFRunLoopEntry).isFault = true ∧
    (control_flow_begin_handler kCFRunLoopExit).isFault = true ∧
    (control_flow_end_handler kCFRunLoopEntry).isFault = true ∧
    (control_flow_end_handler kCFRunLoopExit).isFault = true ∧
    invokeObserver beginObserver kCFRunLoopAfterWaiting =
      some (.calls .handle_wakeup_transition) ∧
    invokeObserver beginObserver kCFRunLoopBeforeWaiting = none ∧
    invokeObserver endObserver kCFRunLoopBeforeWaiting =
      some (.calls .handle_events_cleared) ∧
    invokeObserver endObserver kCFRunLoopAfterWaiting = none := by
  decide

/-- C7: `run` raises a fatal assertion exactly when the host application
singleton already exists; otherwise it registers the boxed handler through
the will-launch point and then invokes the host entry point, in that order;
and its outcome type has no constructor for returning to the caller. -/
theorem C7_run_spec :
    EventLoop.run true = (.fatalAssertion, []) ∧
    EventLoop.run false = (.divergedInHost, [.willLaunch, .uiApplicationMain]) ∧
    (∀ o : RunOutcome, o = .fatalAssertion ∨ o = .divergedInHost) := by
  refine ⟨rfl, rfl, fun o => ?_⟩
  cases o
  · exact Or.inl rfl
  · exact Or.inr rfl

/-- C1 counterexample: with the initial world, the clone of the first proxy
does NOT share its run-loop source (the source identities differ), and after
dropping the first proxy the clone's own source is still valid and
registered — so clones do not lose wake-up ability when the original proxy
is dropped, contradicting the claim. -/
theorem C1_counterexample :
    (EventLoopProxy.clone
        (EventLoop.create_proxy (initialWorld Nat)).1
        (EventLoop.create_proxy (initialWorld Nat)).2.1).2.1.source ≠
      (EventLoop.create_proxy (initialWorld Nat)).2.1.source ∧
    sourceValid
      (EventLoopProxy.drop
        (EventLoopProxy.clone
          (EventLoop.create_proxy (initialWorld Nat)).1
          (EventLoop.create_proxy (initialWorld Nat)).2.1).1
        (EventLoop.create_proxy (initialWorld Nat)).2.1).1
      (EventLoopProxy.clone
        (EventLoop.create_proxy (initialWorld Nat)).1
        (EventLoop.create_proxy (initialWorld Nat)).2.1).2.1.source = true := by
  decide

/-- C1 amended: cloning a proxy clones the channel producer but creates a
fresh run-loop source, distinct from the cloned proxy's source; dropping
the original proxy invalidates only its own source, so the clone's source
remains valid and the clone can still wake the run loop. -/
theorem C1_clone_fresh_source {T : Type} (w : World T) (p : EventLoopProxy)
    (h : p.source < w.nextSource) :
    (EventLoopProxy.clone w p).2.1.source ≠ p.source ∧
    sourceValid
      (EventLoopProxy.drop (EventLoopProxy.clone w p).1 p).1
      (EventLoopProxy.clone w p).2.1.source = true := by
  constructor
  · exact fun hc => absurd (hc ▸ h) (lt_irrefl _)
  · simp only [EventLoopProxy.clone, EventLoopProxy.new, EventLoopProxy.drop,
      sourceValid]
    rw [List.any_eq_true]
    refine ⟨⟨w.nextSource, CFIndexMax - 1, true, false⟩, ?_, by simp⟩
    rw [List.mem_map]
    refine ⟨⟨w.nextSource, CFIndexMax - 1, true, false⟩,
      List.mem_append_right _ (List.mem_singleton.mpr rfl), ?_⟩
    simp [Nat.ne_of_gt h]

/-- C1 amended witness: the general clone theorem applied to the first
proxy of the initial world. -/
theorem C1_clone_fresh_source_witness :
    (EventLoop.create_proxy (initialWorld Nat)).2.1.source <
      (EventLoop.create_proxy (initialWorld Nat)).1.nextSource ∧
    ((EventLoopProxy.clone (EventLoop.create_proxy (initialWorld Nat)).1
        (EventLoop.create_proxy (initialWorld Nat)).2.1).2.1.source ≠
      (EventLoop.create_proxy (initialWorld Nat)).2.1.source ∧
    sourceValid
      (EventLoopProxy.drop
        (EventLoopProxy.clone (EventLoop.create_proxy (initialWorld Nat)).1
          (EventLoop.create_proxy (initialWorld Nat)).2.1).1
        (EventLoop.create_proxy (initialWorld Nat)).2.1).1
      (EventLoopProxy.clone (EventLoop.create_proxy (initialWorld Nat)).1
        (EventLoop.create_proxy (initialWorld Nat)).2.1).2.1.source = true) :=
  ⟨by decide,
   C1_clone_fresh_source (EventLoop.create_proxy (initialWorld Nat)).1
     (EventLoop.create_proxy (initialWorld Nat)).2.1 (by decide)⟩

/-- C2: `send_event` returns the loop-closed error exactly when the channel
consumer has been dropped; its result is either success or that single
error; and on success it signals this proxy's run-loop source and wakes the
main run loop (after enqueueing the value in FIFO order). -/
theorem C2_send_event_spec {T : Type} (w : World T) (p : EventLoopProxy) (v : T) :
    ((send_event w p v).2.1 = .error .mk ↔ w.receiverAlive = false) ∧
    ((send_event w p v).2.1 = .ok () ∨ (send_event w p v).2.1 = .error .mk) ∧
    (w.receiverAlive = true →
      (send_event w p v).2.2 = [.sourceSignal p.source, .wakeUp] ∧
      (send_event w p v).1.queue = w.queue ++ [v] ∧
      (send_event w p v).1.wakeCount = w.wakeCount + 1) := by
  unfold send_event
  by_cases h : w.receiverAlive <;> simp [h]

/-- C2 witness: the send-event theorem applied at a concrete alive world,
with the success-path hypothesis discharged. -/
theorem C2_send_event_spec_witness :
    (send_event (initialWorld Nat) ⟨0⟩ 42).2.2 =
      [.sourceSignal (EventLoopProxy.mk 0).source, .wakeUp] ∧
    (send_event (initialWorld Nat) ⟨0⟩ 42).1.queue =
      (initialWorld Nat).queue ++ [42] ∧
    (send_event (initialWorld Nat) ⟨0⟩ 42).1.wakeCount =
      (initialWorld Nat).wakeCount + 1 :=
  (C2_send_event_spec (initialWorld Nat) ⟨0⟩ 42).2.2 rfl

/-- C3: after any sequence of `send_event` calls from one proxy while the
loop is alive, `handle_user_events` invokes the callback exactly once per
value, wrapped as `Event.UserEvent`, in send order (appended after whatever
was already queued), leaves the channel drained, and on any state delivers
exactly as many callbacks as there are currently queued values (the drain
is bounded by the queue and never waits for more). -/
theorem C3_user_events_in_order {T : Type} (w : World T) (p : EventLoopProxy)
    (vs : List T) (halive : w.receiverAlive = true) :
    (handle_user_events (sendAll w p vs)).2 =
      (w.queue ++ vs).map Event.UserEvent ∧
    (handle_user_events (sendAll w p vs)).1.queue = [] ∧
    (∀ w2 : World T, (handle_user_events w2).2.length = w2.queue.length) := by
  have h := sendAll_queue p vs w halive
  exact ⟨by rw [handle_user_events, h.1], rfl,
    fun w2 => by simp [handle_user_events]⟩

/-- C3 witness: three values sent from the first proxy of a fresh world are
delivered as exactly those three user events, in order. -/
theorem C3_user_events_in_order_witness :
    (handle_user_events (sendAll (initialWorld Nat) ⟨0⟩ [7, 8, 9])).2 =
      ((initialWorld Nat).queue ++ [7, 8, 9]).map Event.UserEvent ∧
    (handle_user_events (sendAll (initialWorld Nat) ⟨0⟩ [7, 8, 9])).1.queue = [] ∧
    (∀ w2 : World Nat, (handle_user_events w2).2.length = w2.queue.length) :=
  C3_user_events_in_order (initialWorld Nat) ⟨0⟩ [7, 8, 9] rfl

/-- C4: the resume-boundary observer is registered at order
`CFIndex::min_value()` and the sleep-boundary observer at order
`CFIndex::max_value()`, so under CFRunLoop's smaller-order-runs-earlier
convention the former runs no later than any other observer with an order
in the CFIndex range and the latter no earlier; the former invokes the
wakeup-transition entry point on after-waiting and the latter the
events-cleared entry point on before-waiting; both are registered by
`setup_control_flow_observers`. -/
theorem C4_observer_priorities (o : Int)
    (h1 : CFIndexMin ≤ o) (h2 : o ≤ CFIndexMax) :
    beginObserver.order = CFIndexMin ∧
    endObserver.order = CFIndexMax ∧
    beginObserver.order ≤ o ∧
    o ≤ endObserver.order ∧
    invokeObserver beginObserver kCFRunLoopAfterWaiting =
      some (.calls .handle_wakeup_transition) ∧
    invokeObserver endObserver kCFRunLoopBeforeWaiting =
      some (.calls .handle_events_cleared) ∧
    (∀ (T : Type) (w : World T),
      (setup_control_flow_observers w).1.observers =
        w.observers ++ [beginObserver, endObserver]) :=
  ⟨rfl, rfl, h1, h2, by decide, by decide, fun _ _ => rfl⟩

/-- C4 witness: the priority theorem applied at the order 0, which lies in
the CFIndex range. -/
theorem C4_observer_priorities_witness :
    beginObserver.order = CFIndexMin ∧
    endObserver.order = CFIndexMax ∧
    beginObserver.order ≤ 0 ∧
    (0 : Int) ≤ endObserver.order ∧
    invokeObserver beginObserver kCFRunLoopAfterWaiting =
      some (.calls .handle_wakeup_transition) ∧
    invokeObserver endObserver kCFRunLoopBeforeWaiting =
      some (.calls .handle_events_cleared) ∧
    (∀ (T : Type) (w : World T),
      (setup_control_flow_observers w).1.observers =
        w.observers ++ [beginObserver, endObserver]) :=
  C4_observer_priorities 0 (by decide) (by decide)

/-- A successful `EventLoop::new` leaves the process-wide singleton flag
set. -/
theorem new_ok_singleton {T : Type} (b : Bool) (w w1 : World T)
    (eff : List Effect) (hok : EventLoop.new b w = .ok (w1, eff)) :
    w1.singletonInit = true := by
  cases b with
  | false => simp [EventLoop.new] at hok
  | true =>
    by_cases hs : w.singletonInit
    · simp [EventLoop.new, hs] at hok
    · simp only [EventLoop.new, hs, Bool.not_true, ite_false, ite_true,
        Bool.false_eq_true, not_true_eq_false, not_false_eq_true,
        setup_control_flow_observers, Except.ok.injEq, Prod.mk.injEq] at hok
      obtain ⟨h1, -⟩ := hok
      subst h1
      rfl

/-- C6: `new` aborts off the main thread; aborts when the singleton flag is
already set (a second instance); on success the flag is set, and any later
`new` call aborts whatever thread it is on; and no other operation of the
bridge (proxy construction, send, proxy drop, user-event drain, window
target drop) ever clears the flag. -/
theorem C6_new_singleton_guard {T : Type} (onMain : Bool) (w : World T) :
    (onMain = false → EventLoop.new onMain w = .error .notMainThread) ∧
    (onMain = true → w.singletonInit = true →
      EventLoop.new onMain w = .error .secondInstance) ∧
    (∀ (w1 : World T) (eff : List Effect),
      EventLoop.new onMain w = .ok (w1, eff) →
      w1.singletonInit = true ∧
      ∀ b : Bool, ∃ r, EventLoop.new b w1 = .error r) ∧
    (EventLoopProxy.new w).1.singletonInit = w.singletonInit ∧
    (∀ (p : EventLoopProxy) (v : T),
      (send_event w p v).1.singletonInit = w.singletonInit) ∧
    (∀ p : EventLoopProxy,
      (EventLoopProxy.drop w p).1.singletonInit = w.singletonInit) ∧
    (handle_user_events w).1.singletonInit = w.singletonInit ∧
    (dropWindowTarget w).singletonInit = w.singletonInit := by
  refine ⟨?_, ?_, ?_, rfl, ?_, fun p => rfl, rfl, rfl⟩
  · intro h; subst h; rfl
  · intro h1 h2; subst h1; simp [EventLoop.new, h2]
  · intro w1 eff hok
    have hw1 : w1.singletonInit = true := new_ok_singleton onMain w w1 eff hok
    refine ⟨hw1, fun b => ?_⟩
    cases b with
    | false => exact ⟨.notMainThread, rfl⟩
    | true => exact ⟨.secondInstance, by simp [EventLoop.new, hw1]⟩
  · intro p v
    by_cases h : w.receiverAlive <;> simp [send_event, h]

/-- C6 witness: the guard theorem applied on the main thread to the fresh
world; the first successful construction sets the flag and a second
attempt fails. -/
theorem C6_new_singleton_guard_witness :
    ∀ (w1 : World Nat) (eff : List Effect),
      EventLoop.new true (initialWorld Nat) = .ok (w1, eff) →
      w1.singletonInit = true ∧
      ∀ b : Bool, ∃ r, EventLoop.new b w1 = .error r :=
  (C6_new_singleton_guard true (initialWorld Nat)).2.2.1

/-- C8: for proxies minted by consecutive constructions and then dropped in
any order, the drop trace invalidates each proxy's run-loop source exactly
once and releases it exactly once — no source is ever invalidated or
released twice. -/
theorem C8_drop_no_double_invalidate {T : Type} (w0 w : World T) (n : Nat)
    (ps : List EventLoopProxy) (hperm : ps.Perm (createProxies w0 n).2) :
    ∀ p ∈ ps,
      (dropAll w ps).2.count (Effect.sourceInvalidate p.source) = 1 ∧
      (dropAll w ps).2.count (Effect.cfRelease p.source) = 1 := by
  intro p hp
  have hmap : (ps.map EventLoopProxy.source).Perm
      ((createProxies w0 n).2.map EventLoopProxy.source) :=
    hperm.map _
  have hnodup : (ps.map EventLoopProxy.source).Nodup := by
    rw [hmap.nodup_iff, createProxies_sources]
    exact List.nodup_range' _ _
  have hmem : p.source ∈ ps.map EventLoopProxy.source :=
    List.mem_map_of_mem _ hp
  have hcount : (ps.map EventLoopProxy.source).count p.source = 1 :=
    List.count_eq_one_of_mem hnodup hmem
  have hc := dropAll_count ps w p.source
  exact ⟨hc.1.trans hcount, hc.2.trans hcount⟩

/-- C8 witness: two proxies created in a row and dropped in reverse order;
the source of the first proxy is invalidated exactly once and released
exactly once. -/
theorem C8_drop_no_double_invalidate_witness :
    (dropAll (initialWorld Nat) [⟨1⟩, ⟨0⟩]).2.count
      (Effect.sourceInvalidate (EventLoopProxy.mk 0).source) = 1 ∧
    (dropAll (initialWorld Nat) [⟨1⟩, ⟨0⟩]).2.count
      (Effect.cfRelease (EventLoopProxy.mk 0).source) = 1 :=
  C8_drop_no_double_invalidate (initialWorld Nat) (initialWorld Nat) 2
    [⟨1⟩, ⟨0⟩] (by decide) ⟨0⟩ (by decide)

/-- C9: every `Event Never` is a non-user event (the `Never` payload type
is uninhabited), `handle_nonuser_event` forwards it to the wrapped callback
unchanged together with the control-flow value, and the unwrap-panic branch
of `map_nonuser_event().unwrap()` is unreachable. -/
theorem C9_nonuser_forwarding {T : Type} (e : Event Never) (cf : ControlFlow) :
    (∃ n : NonUserEvent, e = Event.NonUser n) ∧
    (∀ n : NonUserEvent, e = Event.NonUser n →
      (handle_nonuser_event e cf : DispatchResult T) =
        DispatchResult.delivered (Event.NonUser n) cf) ∧
    (handle_nonuser_event e cf : DispatchResult T) ≠
      DispatchResult.unwrapFault := by
  cases e with
  | UserEvent v => cases v
  | NonUser n =>
    refine ⟨⟨n, rfl⟩, ?_, ?_⟩
    · intro m hm
      injection hm with h
      subst h
      rfl
    · intro hcontr
      simp [handle_nonuser_event, Event.map_nonuser_event] at hcontr

/-- C9 witness: the forwarding theorem applied to a concrete non-user
event and control flow. -/
theorem C9_nonuser_forwarding_witness :
    (∃ n : NonUserEvent, (Event.NonUser ⟨5⟩ : Event Never) = Event.NonUser n) ∧
    (∀ n : NonUserEvent, (Event.NonUser ⟨5⟩ : Event Never) = Event.NonUser n →
      (handle_nonuser_event (Event.NonUser ⟨5⟩) ControlFlow.Wait :
          DispatchResult Nat) =
        DispatchResult.delivered (Event.NonUser n) ControlFlow.Wait) ∧
    (handle_nonuser_event (Event.NonUser ⟨5⟩) ControlFlow.Wait :
        DispatchResult Nat) ≠ DispatchResult.unwrapFault :=
  C9_nonuser_forwarding (Event.NonUser ⟨5⟩) ControlFlow.Wait

end Winit
